import Mathlib

/-!
Verification of the PaperPay repository: a shallow embedding of the
grant / payment / ledger / QR-bundle logic of the two Express servers in
`server.ts`, the `OpenPayments` class in `cache.ts`, and the helpers in
`open-payments.ts`, together with theorems settling the specification's
claims.

Modelling conventions:
* JS `Map` objects become association lists preserving insertion order.
* Network calls (wallet lookup, grant request / continue, resource
  creation) become oracle functions returning `Except`; theorems
  quantify over the oracle, so they hold for every network behaviour.
* Thrown JS exceptions inside a handler's `try` block become `Except`
  errors that that the handler's catch-branch turns into a 500 result.
* Timestamps (`Date`, ISO strings) are abstract `Nat` ticks.
* Monetary JS numbers are modelled as `Nat` (integral currency units).
* `crypto.createHash("sha-256")` and `crypto.createHmac("sha256", k)`
  are embedded as a full executable SHA-256 / HMAC-SHA-256 over byte
  lists (`Nat` values below 256), with base64 and hex encodings.
-/

namespace PaperPay

/-! ## 32-bit word arithmetic (Nat with explicit mod 2^32) -/

/-- The SHA-256 word modulus, `2 ^ 32`. -/
def w32 : Nat := 4294967296

/-- Addition modulo `2 ^ 32`. -/
def add32 (a b : Nat) : Nat := (a + b) % w32

/-- Right rotation of a 32-bit word by `n` places. -/
def rotr32 (n x : Nat) : Nat := ((x >>> n) ||| (x <<< (32 - n))) % w32

/-- SHA-256 `Ch` function: `(e AND f) XOR ((NOT e) AND g)`. -/
def chFn (e f g : Nat) : Nat := (e &&& f) ^^^ ((e ^^^ 4294967295) &&& g)

/-- SHA-256 `Maj` function. -/
def majFn (a b c : Nat) : Nat := (a &&& b) ^^^ (a &&& c) ^^^ (b &&& c)

/-- SHA-256 big sigma 0. -/
def bigSigma0 (x : Nat) : Nat := rotr32 2 x ^^^ rotr32 13 x ^^^ rotr32 22 x

/-- SHA-256 big sigma 1. -/
def bigSigma1 (x : Nat) : Nat := rotr32 6 x ^^^ rotr32 11 x ^^^ rotr32 25 x

/-- SHA-256 small sigma 0. -/
def smallSigma0 (x : Nat) : Nat := rotr32 7 x ^^^ rotr32 18 x ^^^ (x >>> 3)

/-- SHA-256 small sigma 1. -/
def smallSigma1 (x : Nat) : Nat := rotr32 17 x ^^^ rotr32 19 x ^^^ (x >>> 10)

/-- The 64 SHA-256 round constants of FIPS 180-4 (the fractional parts
of the cube roots of the first 64 primes), written in decimal. -/
def kConst : List Nat :=
  [1116352408, 1899447441, 3049323471, 3921009573,
   961987163, 1508970993, 2453635748, 2870763221,
   3624381080, 310598401, 607225278, 1426881987,
   1925078388, 2162078206, 2614888103, 3248222580,
   3835390401, 4022224774, 264347078, 604807628,
   770255983, 1249150122, 1555081692, 1996064986,
   2554220882, 2821834349, 2952996808, 3210313671,
   3336571891, 3584528711, 113926993, 338241895,
   666307205, 773529912, 1294757372, 1396182291,
   1695183700, 1986661051, 2177026350, 2456956037,
   2730485921, 2820302411, 3259730800, 3345764771,
   3516065817, 3600352804, 4094571909, 275423344,
   430227734, 506948616, 659060556, 883997877,
   958139571, 1322822218, 1537002063, 1747873779,
   1955562222, 2024104815, 2227730452, 2361852424,
   2428436474, 2756734187, 3204031479, 3329325298]

/-- SHA-256 working state: eight 32-bit words. -/
structure Hash8 where
  a : Nat
  b : Nat
  c : Nat
  d : Nat
  e : Nat
  f : Nat
  g : Nat
  hh : Nat

/-- The SHA-256 initial hash value of FIPS 180-4 (the fractional parts
of the square roots of the first 8 primes), written in decimal. -/
def sha256Init : Hash8 :=
  ⟨1779033703, 3144134277, 1013904242, 2773480762,
   1359893119, 2600822924, 528734635, 1541459225⟩

/-- One SHA-256 round, fed a pair of round constant and schedule word. -/
def sha256Round (st : Hash8) (kw : Nat × Nat) : Hash8 :=
  let t1 := add32 st.hh (add32 (bigSigma1 st.e) (add32 (chFn st.e st.f st.g) (add32 kw.1 kw.2)))
  let t2 := add32 (bigSigma0 st.a) (majFn st.a st.b st.c)
  ⟨add32 t1 t2, st.a, st.b, st.c, add32 st.d t1, st.e, st.f, st.g⟩

/-- Extend the message schedule by one word. -/
def scheduleStep (ws : List Nat) : List Nat :=
  let n := ws.length
  ws ++ [add32 (smallSigma1 (ws.getD (n - 2) 0))
          (add32 (ws.getD (n - 7) 0)
            (add32 (smallSigma0 (ws.getD (n - 15) 0)) (ws.getD (n - 16) 0)))]

/-- Extend 16 schedule words to 64. -/
def schedule (ws : List Nat) : List Nat :=
  (List.range 48).foldl (fun acc _ => scheduleStep acc) ws

/-- Big-endian 32-bit words from a byte list (length a multiple of 4). -/
def toWords : List Nat → List Nat
  | b0 :: b1 :: b2 :: b3 :: rest =>
      (b0 * 16777216 + b1 * 65536 + b2 * 256 + b3) :: toWords rest
  | _ => []

/-- Split a byte list into 64-byte blocks, with a structural fuel
argument so the definition reduces definitionally. -/
def toBlocksAux : Nat → List Nat → List (List Nat)
  | 0, _ => []
  | _, [] => []
  | fuel + 1, x :: xs => ((x :: xs).take 64) :: toBlocksAux fuel ((x :: xs).drop 64)

/-- Split a byte list into 64-byte blocks. -/
def toBlocks (l : List Nat) : List (List Nat) := toBlocksAux l.length l

/-- SHA-256 compression of one 64-byte block. -/
def sha256Compress (st : Hash8) (block : List Nat) : Hash8 :=
  let r := (kConst.zip (schedule (toWords block))).foldl sha256Round st
  ⟨add32 st.a r.a, add32 st.b r.b, add32 st.c r.c, add32 st.d r.d,
   add32 st.e r.e, add32 st.f r.f, add32 st.g r.g, add32 st.hh r.hh⟩

/-- The eight final big-endian bytes of the 64-bit message bit length. -/
def lenBytes64 (n : Nat) : List Nat :=
  [(n >>> 56) % 256, (n >>> 48) % 256, (n >>> 40) % 256, (n >>> 32) % 256,
   (n >>> 24) % 256, (n >>> 16) % 256, (n >>> 8) % 256, n % 256]

/-- SHA-256 message padding: `0x80`, zeros to 56 mod 64, 64-bit length. -/
def padMessage (msg : List Nat) : List Nat :=
  let len := msg.length
  msg ++ 128 :: (List.replicate ((119 - len % 64) % 64) 0 ++ lenBytes64 (len * 8))

/-- A 32-bit word as a bounded value, giving the digest a finite type. -/
abbrev Word32 := Fin 4294967296

/-- Pack a `Nat` into a 32-bit word. -/
def toWord32 (n : Nat) : Word32 := ⟨n % 4294967296, Nat.mod_lt _ (by decide)⟩

/-- A SHA-256 digest: eight bounded 32-bit words (a finite type). -/
abbrev Digest8 := Word32 × Word32 × Word32 × Word32 × Word32 × Word32 × Word32 × Word32

/-- SHA-256 of a byte list, as eight bounded words. -/
def sha256Digest (msg : List Nat) : Digest8 :=
  let r := (toBlocks (padMessage msg)).foldl sha256Compress sha256Init
  (toWord32 r.a, toWord32 r.b, toWord32 r.c, toWord32 r.d,
   toWord32 r.e, toWord32 r.f, toWord32 r.g, toWord32 r.hh)

/-- Big-endian bytes of one 32-bit word. -/
def wordBytes (w : Word32) : List Nat :=
  [(w.val >>> 24) % 256, (w.val >>> 16) % 256, (w.val >>> 8) % 256, w.val % 256]

/-- The 32 digest bytes of a SHA-256 digest. -/
def digestBytes (d : Digest8) : List Nat :=
  wordBytes d.1 ++ wordBytes d.2.1 ++ wordBytes d.2.2.1 ++ wordBytes d.2.2.2.1 ++
  wordBytes d.2.2.2.2.1 ++ wordBytes d.2.2.2.2.2.1 ++ wordBytes d.2.2.2.2.2.2.1 ++
  wordBytes d.2.2.2.2.2.2.2

/-! ## Encodings: base64, hex, UTF-8 -/

/-- The standard base64 alphabet. -/
def b64Alphabet : List Char :=
  "ABCDEFGHIJKLMNOPQRSTUVWXYZabcdefghijklmnopqrstuvwxyz0123456789+/".data

/-- The base64 character for a 6-bit value. -/
def b64Char (n : Nat) : Char := b64Alphabet.getD n 'A'

/-- Base64 encoding of a byte list, three bytes to four characters. -/
def base64Chars : List Nat → List Char
  | [] => []
  | [b0] => [b64Char (b0 / 4), b64Char (b0 % 4 * 16), '=', '=']
  | [b0, b1] => [b64Char (b0 / 4), b64Char (b0 % 4 * 16 + b1 / 16), b64Char (b1 % 16 * 4), '=']
  | b0 :: b1 :: b2 :: rest =>
      b64Char (b0 / 4) :: b64Char (b0 % 4 * 16 + b1 / 16) ::
      b64Char (b1 % 16 * 4 + b2 / 64) :: b64Char (b2 % 64) :: base64Chars rest

/-- Base64 encoding as a string. -/
def base64Encode (bs : List Nat) : String := String.mk (base64Chars bs)

/-- Lower-case hex digit for a value below 16. -/
def hexDigit (n : Nat) : Char := "0123456789abcdef".data.getD n '0'

/-- Hex characters of a byte list. -/
def hexChars : List Nat → List Char
  | [] => []
  | b :: rest => hexDigit (b / 16) :: hexDigit (b % 16) :: hexChars rest

/-- Hex encoding as a string. -/
def hexEncode (bs : List Nat) : String := String.mk (hexChars bs)

/-- UTF-8 bytes of one character. -/
def utf8Char (c : Char) : List Nat :=
  let v := c.toNat
  if v < 128 then [v]
  else if v < 2048 then [192 + v / 64, 128 + v % 64]
  else if v < 65536 then [224 + v / 4096, 128 + v / 64 % 64, 128 + v % 64]
  else [240 + v / 262144, 128 + v / 4096 % 64, 128 + v / 64 % 64, 128 + v % 64]

/-- UTF-8 bytes of a string. -/
def strBytes (s : String) : List Nat := s.data.flatMap utf8Char

/-- SHA-256 of a string's UTF-8 bytes, digest in base64 (the
`createHash("sha-256") … digest("base64")` pipeline of `cache.ts`). -/
def sha256Base64 (s : String) : String := base64Encode (digestBytes (sha256Digest (strBytes s)))

/-! ## HMAC-SHA-256 (the `createHmac("sha256", secret)` of `server.ts`) -/

/-- HMAC-SHA-256 digest over byte lists, as a value of the finite digest
type. -/
def hmacDigest (key msg : List Nat) : Digest8 :=
  let k0 := if 64 < key.length then digestBytes (sha256Digest key) else key
  let kpad := k0 ++ List.replicate (64 - k0.length) 0
  sha256Digest ((kpad.map fun b => b ^^^ 92) ++
    digestBytes (sha256Digest ((kpad.map fun b => b ^^^ 54) ++ msg)))

/-- HMAC-SHA-256 with hex output (the `digest('hex')` of `server.ts`). -/
def hmacHex (key msg : List Nat) : String := hexEncode (digestBytes (hmacDigest key msg))

/-! ## Wallet metadata (the wallet-address resolution contract of §6) -/

/-- Wallet-address metadata as returned by `client.walletAddress.get`. -/
structure WalletInfo where
  id : String
  assetCode : String
  assetScale : Nat
  authServer : String
  resourceServer : String
deriving DecidableEq

/-! ## `cache.ts`: the `OpenPayments` class (InstantPay flow) -/

namespace InstantPay

/-- The data `setupInstantPay` caches under the client identifier. -/
structure InstantPayData where
  walletAddressUrl : String
  clientNonce : String
  interactNonce : String
  continueUri : String
  continueToken : String

/-- The token info `continueGrant` returns. -/
structure TokenInfo where
  accessToken : String
  manageUrl : String
deriving DecidableEq

/-- The verification parameters of `verifyInteractionHash`. -/
structure VerifyParams where
  interactRef : String
  receivedHash : String
  clientNonce : String
  interactNonce : String
  walletAddressUrl : String

/-- The `verifyInteractionHash` method of `cache.ts` lines 223-240: re-fetch the
wallet address, rebuild the newline-joined data string terminated by the
authorization-server URL and a trailing `/`, SHA-256 it, base64-encode,
and compare with the received hash; a mismatch throws. The wallet
directory is the pure lookup `dir` (spec §2: WalletDirectory is a pure
leaf). -/
def verifyInteractionHash (dir : String → WalletInfo) (p : VerifyParams) : Except String Unit :=
  let walletAddress := dir p.walletAddressUrl
  let data := p.clientNonce ++ "\n" ++ p.interactNonce ++ "\n" ++ p.interactRef ++ "\n" ++
    walletAddress.authServer ++ "/"
  let calculatedHash := sha256Base64 data
  if calculatedHash = p.receivedHash then Except.ok () else Except.error "Hash verification failed"

/-- The four-field preimage string of the interaction hash (spec §4.2:
each value on its own line, terminated by the authorization-server URL
plus a trailing separator). -/
def hashInput (clientNonce interactNonce interactRef authServerUrl : String) : String :=
  clientNonce ++ "\n" ++ interactNonce ++ "\n" ++ interactRef ++ "\n" ++ authServerUrl ++ "/"

/-- Modelled from the spec: `computeHash(clientNonce, interactNonce,
interactionRef, authServerUrl)` of §4.2, the digest of the concatenated
inputs in a fixed textual encoding, to be compared against the code's
inline computation. -/
def computeHash (clientNonce interactNonce interactRef authServerUrl : String) : String :=
  sha256Base64 (hashInput clientNonce interactNonce interactRef authServerUrl)

/-- The `completeInstantPaySetup` method of `cache.ts` lines 105-127. `cached` is
what `this.cache.get(identifier)` returned (`none` models an expired or
absent entry, whose field access faults). `continueOracle` is the
authorization server's continuation endpoint
(`opClient.grant.continue` composed with the `isGrant` type guard of
`continueGrant`), taking continuation token, continuation URI and
interaction reference. The returned flag records whether the
continuation was invoked. -/
def completeInstantPaySetup (dir : String → WalletInfo)
    (continueOracle : String → String → String → Except String TokenInfo)
    (cached : Option InstantPayData) (interactRef hash : String) :
    Except String TokenInfo × Bool :=
  match cached with
  | none => (Except.error "TypeError: cannot read properties of undefined", false)
  | some d =>
    match verifyInteractionHash dir
        ⟨interactRef, hash, d.clientNonce, d.interactNonce, d.walletAddressUrl⟩ with
    | Except.error e => (Except.error e, false)
    | Except.ok _ => (continueOracle d.continueToken d.continueUri interactRef, true)

/-- The incoming-amount value string built by `createVendorIncomingPayment`
(`cache.ts` line 323): `(amount * 10 ** vendorWallet.assetScale).toFixed()`. -/
def createVendorIncomingPaymentValue (vendorWallet : WalletInfo) (amount : Nat) : String :=
  Nat.repr (amount * 10 ^ vendorWallet.assetScale)

/-- The outgoing debit value string built by `makeInstantPayment`
(`cache.ts` line 177): `(amount * 10 ** senderWallet.assetScale).toString()`. -/
def makeInstantPaymentDebitValue (senderWallet : WalletInfo) (amount : Nat) : String :=
  Nat.repr (amount * 10 ^ senderWallet.assetScale)

end InstantPay

/-! ## The payment server (`server.ts` lines 1-730) -/

namespace PayServer

/-- Truthiness of an optional string request field (JS `!x`). -/
def truthyS (o : Option String) : Bool :=
  match o with
  | some s => s ≠ ""
  | none => false

/-- Truthiness of an optional numeric request field (JS `!x`). -/
def truthyN (o : Option Nat) : Bool :=
  match o with
  | some n => n ≠ 0
  | none => false

/-- Lookup in a JS `Map` modelled as an insertion-ordered association
list. -/
def mapGet {α : Type} (m : List (String × α)) (k : String) : Option α :=
  (m.find? (fun p => p.1 == k)).map (·.2)

/-- JS `Map.set`: replace in place if the key exists, else append. -/
def mapSet {α : Type} (m : List (String × α)) (k : String) (v : α) : List (String × α) :=
  if m.any (fun p => p.1 == k) then m.map (fun p => if p.1 == k then (k, v) else p)
  else m ++ [(k, v)]

/-- JS `Map.delete`. -/
def mapDelete {α : Type} (m : List (String × α)) (k : String) : List (String × α) :=
  m.filter (fun p => !(p.1 == k))

/-- An entry of the `grants` map (`server.ts` lines 41-57). -/
structure GrantRec where
  id : String
  customerId : String
  vendorId : String
  vendorName : String
  dailyLimit : Nat
  spentToday : Nat
  expiresAt : Nat
  continueAccessToken : String
  continueUri : String
  interactRef : Option String
  senderWalletAddress : String
  status : String
deriving DecidableEq

/-- An entry of `quoteCache` (`server.ts` lines 21-25); of the cached
quote only its `id` is ever read. -/
structure CacheEntry where
  quoteId : String
  grantExpiry : Nat
  incomingPaymentUrl : String
deriving DecidableEq

/-- A customer record. -/
structure Customer where
  id : String
  name : String
  walletAddress : String
deriving DecidableEq

/-- A vendor record. -/
structure Vendor where
  id : String
  name : String
  walletAddress : String
deriving DecidableEq

/-- The mutable module state of the payment server: the process-wide
`let outgoingpaymentgrantaccessToken` of line 5 and the four in-memory
maps. -/
structure ServerState where
  outgoingpaymentgrantaccessToken : Option String
  quoteCache : List (String × CacheEntry)
  customers : List (String × Customer)
  vendors : List (String × Vendor)
  grants : List (String × GrantRec)
deriving DecidableEq

/-- The arguments of `client.outgoingPayment.create` in
`/api/process-payment` (lines 629-639). -/
structure OutgoingArgs where
  url : String
  accessToken : String
  debitAssetCode : String
  debitAssetScale : Nat
  debitValue : String
  walletAddress : String
  incomingPayment : String
deriving DecidableEq

/-- The arguments `/api/approve-payment` passes to
`createOutgoingPayment` of `open-payments.ts` (lines 171-181). -/
structure ApproveArgs where
  senderWalletAddress : String
  continueAccessToken : String
  quoteId : String
  interactRef : String
  continueUri : String
deriving DecidableEq

/-- The pending-grant response of `createOutgoingPaymentPendingGrant`. -/
structure PendingGrantInfo where
  continueAccessToken : String
  continueUri : String
  redirectUrl : String
deriving DecidableEq

/-- The external collaborators (spec §6), one function per call the
handlers make; each returns `Except` so theorems range over every
network behaviour including thrown errors. -/
structure NetOracle where
  authClientOk : Bool
  walletInfo : String → Except String WalletInfo
  grantContinue : String → String → Option String → Except String String
  incomingCreate : String → WalletInfo → Except String String
  quoteCreate : String → WalletInfo → Except String String
  outgoingCreate : OutgoingArgs → Except String String
  approveOutgoing : ApproveArgs → Except String String
  pendingGrant : String → WalletInfo → Except String PendingGrantInfo

/-- The request body of `/api/process-payment`. -/
structure ProcessPaymentRequest where
  customerWalletAddress : Option String
  receiverWalletAddress : Option String
  continueAccessToken : Option String
  continueUri : Option String
  interactRef : Option String
  spendAmount : Option Nat

/-- The assignment `outgoingpaymentgrantaccessToken = …` performed when
the grant was continued, a no-op otherwise. -/
def setTok (st : ServerState) (t : Option String) : ServerState :=
  match t with
  | some tok => { st with outgoingpaymentgrantaccessToken := some tok }
  | none => st

/-- The outcome of `/api/process-payment`: 400, 500 or 201. -/
inductive PPResult where
  | validationFailed
  | serverFailure (msg : String)
  | created (incomingPaymentId quoteId outgoingPaymentId newAccessToken : String)
deriving DecidableEq

/-- Whether a result is the catch-branch 500 response. -/
def PPResult.is500 : PPResult → Bool
  | PPResult.serverFailure _ => true
  | _ => false

/-- Observable side requests a `/api/process-payment` run issued to the
payment network. -/
structure Effects where
  continued : Option (String × String × Option String)
  incomingIssued : Option (String × WalletInfo)
  outgoingIssued : Option OutgoingArgs
deriving DecidableEq

/-- No network side requests. -/
def noEffects : Effects := ⟨none, none, none⟩

/-- Handler of `/api/process-payment` (`server.ts` lines 560-657). Field validation
omits `customerWalletAddress` and `interactRef`; the grant is continued
only when the process-wide token slot is empty, and the slot assignment
persists across a later throw; the incoming amount and the outgoing
debit both use `(spendAmount * 100).toString()`; the final create
dereferences `customerWalletDetails!` unconditionally, which faults when
the customer wallet was not supplied. No read or write of the `grants`
map occurs anywhere in the handler. -/
def processPayment (o : NetOracle) (st : ServerState) (req : ProcessPaymentRequest) :
    PPResult × ServerState × Effects :=
  if !(truthyS req.receiverWalletAddress && truthyS req.continueAccessToken &&
       truthyS req.continueUri && truthyN req.spendAmount) then
    (PPResult.validationFailed, st, noEffects)
  else if !o.authClientOk then
    (PPResult.serverFailure "client", st, noEffects)
  else
    match o.walletInfo (req.receiverWalletAddress.getD "") with
    | Except.error e => (PPResult.serverFailure e, st, noEffects)
    | Except.ok receiverWalletDetails =>
      let customerLookup : Except String (Option WalletInfo) :=
        match req.customerWalletAddress with
        | some cw => if cw = "" then Except.ok none else (o.walletInfo cw).map some
        | none => Except.ok none
      match customerLookup with
      | Except.error e => (PPResult.serverFailure e, st, noEffects)
      | Except.ok customerWalletDetails =>
        let contCall : Option (String × String × Option String) :=
          if st.outgoingpaymentgrantaccessToken.getD "" = "" then
            some (req.continueAccessToken.getD "", req.continueUri.getD "", req.interactRef)
          else none
        let contRes : Except String (Option String) :=
          match contCall with
          | some (tok, uri, iref) => (o.grantContinue tok uri iref).map some
          | none => Except.ok none
        match contRes with
        | Except.error e => (PPResult.serverFailure e, st, { noEffects with continued := contCall })
        | Except.ok newTok =>
          let st1 := setTok st newTok
          let spendValue := Nat.repr (req.spendAmount.getD 0 * 100)
          match o.incomingCreate spendValue receiverWalletDetails with
          | Except.error e =>
            (PPResult.serverFailure e, st1,
             { continued := contCall, incomingIssued := some (spendValue, receiverWalletDetails),
               outgoingIssued := none })
          | Except.ok incomingPaymentId =>
            let walletForQuote := customerWalletDetails.getD receiverWalletDetails
            match o.quoteCreate incomingPaymentId walletForQuote with
            | Except.error e =>
              (PPResult.serverFailure e, st1,
               { continued := contCall, incomingIssued := some (spendValue, receiverWalletDetails),
                 outgoingIssued := none })
            | Except.ok quoteId =>
              match customerWalletDetails with
              | none =>
                (PPResult.serverFailure "TypeError: cannot read properties of undefined", st1,
                 { continued := contCall, incomingIssued := some (spendValue, receiverWalletDetails),
                   outgoingIssued := none })
              | some cwd =>
                let args : OutgoingArgs :=
                  ⟨cwd.resourceServer, st1.outgoingpaymentgrantaccessToken.getD "",
                   cwd.assetCode, cwd.assetScale, spendValue, cwd.id, incomingPaymentId⟩
                match o.outgoingCreate args with
                | Except.error e =>
                  (PPResult.serverFailure e, st1,
                   { continued := contCall,
                     incomingIssued := some (spendValue, receiverWalletDetails),
                     outgoingIssued := some args })
                | Except.ok outgoingPaymentId =>
                  (PPResult.created incomingPaymentId quoteId outgoingPaymentId
                     (st1.outgoingpaymentgrantaccessToken.getD ""), st1,
                   { continued := contCall,
                     incomingIssued := some (spendValue, receiverWalletDetails),
                     outgoingIssued := some args })

/-- The request body of `/api/approve-payment`. -/
structure ApproveRequest where
  clientSessionId : Option String
  senderWalletAddress : Option String
  continueAccessToken : Option String
  interactRef : Option String
  continueUri : Option String

/-- The outcome of `/api/approve-payment`. -/
inductive ApproveResult where
  | validationFailed
  | sessionNotFound
  | sessionExpired
  | serverFailure (msg : String)
  | approved (outgoingPaymentId : String)
deriving DecidableEq

/-- Handler of `/api/approve-payment` (`server.ts` lines 146-191): validate the
five fields, look the session up in `quoteCache` (miss: 400 "No payment
session found"), reject when `grantExpiry < now` (400 "Quote grant
expired"), resolve the sender wallet, create the outgoing payment via
the continued grant, and only then delete the cache entry. The third
component records the `createOutgoingPayment` call, if any was made. -/
def approvePayment (o : NetOracle) (now : Nat) (st : ServerState) (req : ApproveRequest) :
    ApproveResult × ServerState × Option ApproveArgs :=
  if !(truthyS req.clientSessionId && truthyS req.senderWalletAddress &&
       truthyS req.continueAccessToken && truthyS req.interactRef && truthyS req.continueUri) then
    (ApproveResult.validationFailed, st, none)
  else if !o.authClientOk then
    (ApproveResult.serverFailure "client", st, none)
  else
    match mapGet st.quoteCache (req.clientSessionId.getD "") with
    | none => (ApproveResult.sessionNotFound, st, none)
    | some cached =>
      if cached.grantExpiry < now then (ApproveResult.sessionExpired, st, none)
      else
        match o.walletInfo (req.senderWalletAddress.getD "") with
        | Except.error e => (ApproveResult.serverFailure e, st, none)
        | Except.ok _ =>
          let args : ApproveArgs :=
            ⟨req.senderWalletAddress.getD "", req.continueAccessToken.getD "",
             cached.quoteId, req.interactRef.getD "", req.continueUri.getD ""⟩
          match o.approveOutgoing args with
          | Except.error e => (ApproveResult.serverFailure e, st, some args)
          | Except.ok outgoingPaymentId =>
            (ApproveResult.approved outgoingPaymentId,
             { st with quoteCache := mapDelete st.quoteCache (req.clientSessionId.getD "") },
             some args)

/-- The request body of `/api/customers/:customerId/authorize-vendor`. -/
structure AuthorizeVendorRequest where
  vendorId : Option String
  spendingLimit : Option Nat
  redirectUrl : Option String

/-- The outcome of `/api/customers/:customerId/authorize-vendor`. -/
inductive AuthorizeVendorResult where
  | validationFailed
  | customerNotFound
  | vendorNotFound
  | serverFailure (msg : String)
  | created (grantId : String)
deriving DecidableEq

/-- Handler of `/api/customers/:customerId/authorize-vendor` (`server.ts` lines
401-500): validate, look up customer and vendor, request a pending
grant for `spendingLimit * 100` (ZAR, scale 2), then store a fresh
`GrantRec` with `spentToday = 0`, expiry 30 days out and status
"active". No check for an existing active grant of the same
(customer, vendor) pair is performed. `freshId` is the `uuidv4()`
result, `now` the current tick. -/
def authorizeVendor (o : NetOracle) (now : Nat) (freshId : String) (st : ServerState)
    (customerId : String) (req : AuthorizeVendorRequest) :
    AuthorizeVendorResult × ServerState :=
  if !(truthyS req.vendorId && truthyN req.spendingLimit && truthyS req.redirectUrl) then
    (AuthorizeVendorResult.validationFailed, st)
  else
    match mapGet st.customers customerId with
    | none => (AuthorizeVendorResult.customerNotFound, st)
    | some customer =>
      match mapGet st.vendors (req.vendorId.getD "") with
      | none => (AuthorizeVendorResult.vendorNotFound, st)
      | some vendor =>
        if !o.authClientOk then (AuthorizeVendorResult.serverFailure "client", st)
        else
          match o.walletInfo customer.walletAddress with
          | Except.error e => (AuthorizeVendorResult.serverFailure e, st)
          | Except.ok walletAddressDetails =>
            match o.pendingGrant (Nat.repr (req.spendingLimit.getD 0 * 100))
                walletAddressDetails with
            | Except.error e => (AuthorizeVendorResult.serverFailure e, st)
            | Except.ok pendingGrant =>
              let g : GrantRec :=
                ⟨freshId, customerId, req.vendorId.getD "", vendor.name,
                 req.spendingLimit.getD 0, 0, now + 30, pendingGrant.continueAccessToken,
                 pendingGrant.continueUri, none, customer.walletAddress, "active"⟩
              (AuthorizeVendorResult.created freshId,
               { st with grants := mapSet st.grants freshId g })

end PayServer

/-! ## The customer / QR server (`server.ts` lines 730-1119) -/

namespace CustServer

/-- The `status` field of a `CustomerGrant`. -/
inductive GrantStatus where
  | active
  | expired
  | suspended
deriving DecidableEq, BEq

/-- The `CustomerGrant` interface (lines 742-759), `grantData` fields
inlined. -/
structure CustomerGrant where
  id : String
  customerId : String
  vendorId : String
  vendorName : String
  dailyLimit : Nat
  spentToday : Nat
  expiresAt : Nat
  continueAccessToken : String
  continueUri : String
  interactRef : Option String
  senderWalletAddress : String
  status : GrantStatus
deriving DecidableEq

/-- A customer record of the customer server. -/
structure Customer where
  id : String
  name : String
  walletAddress : String
deriving DecidableEq

/-- The in-memory stores of the customer server. -/
structure CustState where
  customers : List (String × Customer)
  vendors : List (String × PayServer.Vendor)
  grants : List (String × CustomerGrant)
deriving DecidableEq

/-- A grant summary as embedded in the QR payload (lines 770-781).
ISO timestamps are abstract `Nat` ticks here, serialized as JSON
numbers. -/
structure GrantSummary where
  grantId : String
  vendorId : String
  vendorName : String
  dailyLimit : Nat
  expiresAt : Nat
deriving DecidableEq

/-- The signed part of `QRCodeData`: everything but `signature`, in the
object-key order `customerId`, `grants`, `generatedAt`. -/
structure QRContent where
  customerId : String
  grants : List GrantSummary
  generatedAt : Nat
deriving DecidableEq

/-- The full `QRCodeData` (lines 770-781): the signed content plus the
signature (the rest-destructuring of `verifyQRSignature` recovers
`content`). -/
structure QRCodeData where
  content : QRContent
  signature : String
deriving DecidableEq

/-- JSON escaping of one character, as `JSON.stringify` performs it. -/
def jsonEscapeChar (c : Char) : List Char :=
  if c = '"' then ['\\', '"']
  else if c = '\\' then ['\\', '\\']
  else if c = '\n' then ['\\', 'n']
  else if c = '\r' then ['\\', 'r']
  else if c = '\t' then ['\\', 't']
  else if c.toNat = 8 then ['\\', 'b']
  else if c.toNat = 12 then ['\\', 'f']
  else if c.toNat < 32 then
    ['\\', 'u', '0', '0', hexDigit (c.toNat / 16), hexDigit (c.toNat % 16)]
  else [c]

/-- A JSON string literal. -/
def jsonStr (s : String) : String := "\"" ++ String.mk (s.data.flatMap jsonEscapeChar) ++ "\""

/-- The `JSON.stringify` image of one grant summary, keys in insertion order. -/
def grantJson (g : GrantSummary) : String :=
  "\x7b\"grantId\":" ++ jsonStr g.grantId ++ ",\"vendorId\":" ++ jsonStr g.vendorId ++
  ",\"vendorName\":" ++ jsonStr g.vendorName ++ ",\"dailyLimit\":" ++ Nat.repr g.dailyLimit ++
  ",\"expiresAt\":" ++ Nat.repr g.expiresAt ++ "\x7d"

/-- The `JSON.stringify` image of the signed QR content, keys in insertion order
(`customerId`, `grants`, `generatedAt`). -/
def contentJson (q : QRContent) : String :=
  "\x7b\"customerId\":" ++ jsonStr q.customerId ++ ",\"grants\":[" ++
  String.intercalate "," (q.grants.map grantJson) ++ "],\"generatedAt\":" ++
  Nat.repr q.generatedAt ++ "\x7d"

/-- The signing secret (`QR_SIGNING_SECRET` unset, so the default of
line 795). -/
def qrSigningSecret : String := "default-secret-change-in-prod"

/-- The `generateQRSignature` function (lines 794-800): HMAC-SHA-256 of the
JSON-serialized content under the shared secret, hex-encoded. -/
def generateQRSignature (q : QRContent) : String :=
  hmacHex (strBytes qrSigningSecret) (strBytes (contentJson q))

/-- The `verifyQRSignature` function (lines 803-807): strip the signature, recompute,
compare for equality. -/
def verifyQRSignature (qrData : QRCodeData) : Bool :=
  qrData.signature == generateQRSignature qrData.content

/-- The grant filter of the QR endpoint (lines 993-999): same customer,
status active, expiry strictly in the future, interaction reference
recorded. -/
def includeInBundle (now : Nat) (customerId : String) (g : CustomerGrant) : Bool :=
  g.customerId == customerId && g.status == GrantStatus.active &&
  decide (now < g.expiresAt) && g.interactRef.isSome

/-- The summary the QR endpoint builds from a grant (lines 1008-1014). -/
def summaryOf (g : CustomerGrant) : GrantSummary :=
  ⟨g.id, g.vendorId, g.vendorName, g.dailyLimit, g.expiresAt⟩

/-- Handler of `/api/customers/:customerId/qr-code` (lines 983-1042), up to the
signed payload: look up the customer (404 → `none`), filter the grants
map in insertion order, reject an empty selection (400 → `none`), then
assemble the content and sign it. No sorting is applied anywhere. -/
def buildBundle (now : Nat) (st : CustState) (customerId : String) : Option QRCodeData :=
  match PayServer.mapGet st.customers customerId with
  | none => none
  | some _ =>
    let activeGrants := (st.grants.map Prod.snd).filter (includeInBundle now customerId)
    if activeGrants.isEmpty then none
    else
      let content : QRContent := ⟨customerId, activeGrants.map summaryOf, now⟩
      some ⟨content, generateQRSignature content⟩

/-- Modelled from the spec (§4.5): eligibility of a grant for
`buildBundle(customerId)` — "every `active`, unexpired,
*interaction-completed* CustomerGrant for the customer" — to be compared
with the code's filter. -/
def specEligible (now : Nat) (customerId : String) (g : CustomerGrant) : Bool :=
  g.customerId == customerId && g.status == GrantStatus.active &&
  decide (now < g.expiresAt) && g.interactRef.isSome

/-- Lexicographic string comparison by code point (the JS `<` on
strings), as an executable Bool. -/
def strLeB : List Char → List Char → Bool
  | [], _ => true
  | _ :: _, [] => false
  | a :: as, b :: bs =>
    if a.toNat < b.toNat then true
    else if b.toNat < a.toNat then false
    else strLeB as bs

/-- Modelled from the spec (§4.5): the summary list is "stably sorted by
grantId". -/
def specSortedByGrantId : List GrantSummary → Prop
  | [] => True
  | [_] => True
  | x :: y :: rest =>
    strLeB x.grantId.data y.grantId.data = true ∧ specSortedByGrantId (y :: rest)

/-- The request body of `/api/customers/:customerId/grants`. -/
structure CreateGrantRequest where
  vendorId : Option String
  dailyLimit : Option Nat
  expirationDays : Nat

/-- The outcome of `/api/customers/:customerId/grants`. -/
inductive CreateGrantResult where
  | customerNotFound
  | vendorNotFound
  | invalidLimit
  | duplicateGrant
  | serverFailure (msg : String)
  | created (grantId : String)
deriving DecidableEq

/-- The duplicate-grant lookup of lines 895-896: an active grant of the
same customer and vendor. -/
def existingActiveGrant (grants : List (String × CustomerGrant)) (customerId vendorId : String) :
    Option CustomerGrant :=
  (grants.map Prod.snd).find?
    (fun g => g.customerId == customerId && g.vendorId == vendorId &&
      g.status == GrantStatus.active)

/-- Handler of `/api/customers/:customerId/grants` (lines 875-955): look up
customer and vendor, validate the daily limit (`!dailyLimit ||
dailyLimit <= 0` → 400), reject when an active grant for the
(customer, vendor) pair exists, then request the pending grant
(`dailyLimit * 100`, ZAR, scale 2) and store the new `CustomerGrant`
with `spentToday = 0` and expiry `expirationDays` out. -/
def createGrant (o : PayServer.NetOracle) (now : Nat) (freshId : String) (st : CustState)
    (customerId : String) (req : CreateGrantRequest) : CreateGrantResult × CustState :=
  match PayServer.mapGet st.customers customerId with
  | none => (CreateGrantResult.customerNotFound, st)
  | some customer =>
    match PayServer.mapGet st.vendors (req.vendorId.getD "") with
    | none => (CreateGrantResult.vendorNotFound, st)
    | some vendor =>
      if !PayServer.truthyN req.dailyLimit then (CreateGrantResult.invalidLimit, st)
      else
        match existingActiveGrant st.grants customerId (req.vendorId.getD "") with
        | some _ => (CreateGrantResult.duplicateGrant, st)
        | none =>
          if !o.authClientOk then (CreateGrantResult.serverFailure "client", st)
          else
            match o.walletInfo customer.walletAddress with
            | Except.error e => (CreateGrantResult.serverFailure e, st)
            | Except.ok walletAddressDetails =>
              match o.pendingGrant (Nat.repr (req.dailyLimit.getD 0 * 100))
                  walletAddressDetails with
              | Except.error e => (CreateGrantResult.serverFailure e, st)
              | Except.ok pendingGrant =>
                let g : CustomerGrant :=
                  ⟨freshId, customerId, req.vendorId.getD "", vendor.name,
                   req.dailyLimit.getD 0, 0, now + req.expirationDays,
                   pendingGrant.continueAccessToken, pendingGrant.continueUri, none,
                   customer.walletAddress, GrantStatus.active⟩
                (CreateGrantResult.created freshId,
                 { st with grants := PayServer.mapSet st.grants freshId g })

end CustServer

/-! ## Concrete fixtures used to evaluate the handlers -/

/-- A wallet with asset scale 2 (the ZAR test wallets of the repo). -/
def walletScale2 : WalletInfo :=
  ⟨"https://wallet.test/alice", "ZAR", 2, "https://auth.test", "https://rs.test"⟩

/-- A wallet with asset scale 3, exercising a non-default scale. -/
def walletScale3 : WalletInfo :=
  ⟨"https://wallet.test/tz", "TZS", 3, "https://auth3.test", "https://rs3.test"⟩

/-- A network oracle on which every external call succeeds. -/
def okOracle : PayServer.NetOracle :=
  ⟨true, fun _ => Except.ok walletScale2, fun _ _ _ => Except.ok "rotated-token",
   fun _ _ => Except.ok "ip1", fun _ _ => Except.ok "qt1", fun _ => Except.ok "op1",
   fun _ => Except.ok "op1", fun _ _ => Except.ok ⟨"cat", "curi", "redirect"⟩⟩

/-- A stored grant with daily limit 50 and nothing spent. -/
def grantC1 : PayServer.GrantRec :=
  ⟨"g1", "c1", "v1", "Coffee Shop", 50, 0, 9999, "cat", "curi", some "ir",
   "https://wallet.test/alice", "active"⟩

/-- Server state holding `grantC1` and nothing else. -/
def stC1 : PayServer.ServerState := ⟨none, [], [], [], [("g1", grantC1)]⟩

/-- A process-payment request for 60 currency units, above the 50 limit
of `grantC1`. -/
def reqC1 : PayServer.ProcessPaymentRequest :=
  ⟨some "https://wallet.test/alice", some "https://wallet.test/bob", some "cat",
   some "curi", some "ir", some 60⟩

/-- The outgoing-payment arguments `/api/process-payment` issues for
`reqC1` under `okOracle`. -/
def argsC1 : PayServer.OutgoingArgs :=
  ⟨"https://rs.test", "rotated-token", "ZAR", 2, "6000", "https://wallet.test/alice", "ip1"⟩

/-- Server state with one cached payment session `s1` expiring at 100. -/
def stC4 : PayServer.ServerState :=
  ⟨none, [("s1", ⟨"qt-cached", 100, "ip-cached"⟩)], [], [], []⟩

/-- The server state after session `s1` is consumed. -/
def st1C4 : PayServer.ServerState := ⟨none, [], [], [], []⟩

/-- An approve-payment request for session `s1`. -/
def reqC4 : PayServer.ApproveRequest := ⟨some "s1", some "w", some "t", some "r", some "u"⟩

/-- The outgoing-payment call `/api/approve-payment` makes for `reqC4`. -/
def argsC4 : PayServer.ApproveArgs := ⟨"w", "t", "qt-cached", "r", "u"⟩

/-- An oracle whose grant continuation answers with a per-credential
token: `token-A` for continuation token `catA`, `token-B` otherwise. -/
def oracleC6 : PayServer.NetOracle :=
  { okOracle with grantContinue := fun tok _ _ =>
      if tok = "catA" then Except.ok "token-A" else Except.ok "token-B" }

/-- The empty server state (token slot unset). -/
def stC6 : PayServer.ServerState := ⟨none, [], [], [], []⟩

/-- A process-payment request carrying grant A's continuation
credentials. -/
def reqC6A : PayServer.ProcessPaymentRequest :=
  ⟨some "wA", some "wB", some "catA", some "curiA", some "irA", some 10⟩

/-- A process-payment request carrying grant B's continuation
credentials. -/
def reqC6B : PayServer.ProcessPaymentRequest :=
  ⟨some "wA", some "wB", some "catB", some "curiB", some "irB", some 10⟩

/-- An oracle resolving every wallet to the scale-3 wallet. -/
def oracleC7 : PayServer.NetOracle :=
  { okOracle with walletInfo := fun _ => Except.ok walletScale3 }

/-- A process-payment request for 5 currency units. -/
def reqC7 : PayServer.ProcessPaymentRequest :=
  ⟨some "wA", some "wB", some "cat", some "curi", some "ir", some 5⟩

/-- The outgoing-payment arguments issued for `reqC7` under `oracleC7`:
the debit value is `5 * 100`, not `5 * 10 ^ 3`. -/
def argsC7 : PayServer.OutgoingArgs :=
  ⟨"https://rs3.test", "rotated-token", "TZS", 3, "500", "https://wallet.test/tz", "ip1"⟩

/-- A process-payment request that omits `customerWalletAddress`. -/
def reqC10 : PayServer.ProcessPaymentRequest :=
  ⟨none, some "wB", some "cat", some "curi", some "ir", some 5⟩

/-- An eligible customer grant inserted first, with the
lexicographically larger id `b`. -/
def grantC8b : CustServer.CustomerGrant :=
  ⟨"b", "c", "v1", "ShopA Market", 10, 0, 100, "t1", "u1", some "ir1", "w",
   CustServer.GrantStatus.active⟩

/-- An eligible customer grant inserted second, with the smaller id
`a`. -/
def grantC8a : CustServer.CustomerGrant :=
  ⟨"a", "c", "v2", "MarketB Fresh", 20, 0, 100, "t2", "u2", some "ir2", "w",
   CustServer.GrantStatus.active⟩

/-- An ineligible grant: same customer but no interaction reference. -/
def grantC8p : CustServer.CustomerGrant :=
  ⟨"p", "c", "v3", "FoodStall C", 30, 0, 100, "t3", "u3", none, "w",
   CustServer.GrantStatus.active⟩

/-- Customer-server state whose grants map holds ids `b`, `a`, `p` in
that insertion order. -/
def stC8 : CustServer.CustState :=
  ⟨[("c", ⟨"c", "Jane", "w"⟩)], [],
   [("b", grantC8b), ("a", grantC8a), ("p", grantC8p)]⟩

/-- The bundle the QR endpoint produces for `stC8` at tick 0. -/
def dC8 : CustServer.QRCodeData :=
  (CustServer.buildBundle 0 stC8 "c").getD ⟨⟨"", [], 0⟩, ""⟩

/-- An already-stored active grant of customer `c1` with vendor `v1` on
the payment server. -/
def grantC9 : PayServer.GrantRec :=
  ⟨"g1", "c1", "v1", "Coffee Shop", 50, 0, 9999, "cat", "curi", none,
   "https://wallet.test/alice", "active"⟩

/-- Payment-server state holding `grantC9` plus its customer and
vendor. -/
def stC9 : PayServer.ServerState :=
  ⟨none, [], [("c1", ⟨"c1", "John Doe", "https://wallet.test/alice"⟩)],
   [("v1", ⟨"v1", "Coffee Shop", "https://wallet.test/bob"⟩)], [("g1", grantC9)]⟩

/-- An authorize-vendor request for the pair (`c1`, `v1`) that already
has the active grant `grantC9`. -/
def reqC9 : PayServer.AuthorizeVendorRequest := ⟨some "v1", some 40, some "https://r.test"⟩

/-- Counts the active grants of a (customer, vendor) pair in a grants
map. -/
def activeGrantCount (grants : List (String × PayServer.GrantRec))
    (customerId vendorId : String) : Nat :=
  (grants.map Prod.snd).countP
    (fun g => g.customerId == customerId && g.vendorId == vendorId && g.status == "active")

/-- An active customer-server grant for the pair (`c1`, `v1`). -/
def grantC9w : CustServer.CustomerGrant :=
  ⟨"g1", "c1", "v1", "ShopA Market", 50, 0, 9999, "cat", "curi", none, "w",
   CustServer.GrantStatus.active⟩

/-- Customer-server state holding `grantC9w` plus its customer and
vendor. -/
def stC9w : CustServer.CustState :=
  ⟨[("c1", ⟨"c1", "Jane", "w"⟩)], [("v1", ⟨"v1", "ShopA Market", "wv"⟩)],
   [("g1", grantC9w)]⟩

/-- A create-grant request for the duplicated pair (`c1`, `v1`). -/
def reqC9w : CustServer.CreateGrantRequest := ⟨some "v1", some 40, 30⟩

/-- Decimal decoding of a digit string, the left-fold inverse of
`Nat.repr`; used only to prove `Nat.repr` injective. -/
def decodeDec (l : List Char) : Nat := l.foldl (fun a c => a * 10 + (c.toNat - 48)) 0

/-! ## Helper lemmas -/

/-- Characters with equal code points are equal. -/
theorem char_toNat_inj {a b : Char} (h : a.toNat = b.toNat) : a = b :=
  StrictMono.injective (f := Char.toNat) (fun _ _ hl => hl) h

/-- The hex-digit character determines the value below 16. -/
theorem hexDigit_inj16 :
    ∀ m, m < 16 → ∀ n, n < 16 → hexDigit m = hexDigit n → m = n := by
  decide

/-- The decimal digit character of a value below 10 decodes back. -/
theorem digitChar_decode : ∀ k, k < 10 → (Nat.digitChar k).toNat - 48 = k := by
  decide

/-- Every JSON character escape is nonempty. -/
theorem jsonEscapeChar_ne_nil (c : Char) : CustServer.jsonEscapeChar c ≠ [] := by
  unfold CustServer.jsonEscapeChar
  repeat' split
  all_goals simp

set_option maxHeartbeats 2000000 in
/-- The JSON escape code is prefix-determined: equal concatenations
starting with two escapes have equal first characters. -/
theorem jsonEscapeChar_head (a b : Char) (X Y : List Char)
    (h : CustServer.jsonEscapeChar a ++ X = CustServer.jsonEscapeChar b ++ Y) : a = b := by
  unfold CustServer.jsonEscapeChar at h
  repeat' split at h
  all_goals try simp_all
  all_goals try exact char_toNat_inj (by omega)
  all_goals try (exact absurd h.1.symm (by assumption))
  obtain ⟨h1, h2, -⟩ := h
  have e1 := hexDigit_inj16 _ (by omega) _ (by omega) h1
  have e2 := hexDigit_inj16 _ (by omega) _ (by omega) h2
  exact char_toNat_inj (by omega)

/-- JSON escaping of character lists is injective: the escape code is
uniquely decodable. -/
theorem jsonEscape_flatMap_inj : ∀ s t : List Char,
    s.flatMap CustServer.jsonEscapeChar = t.flatMap CustServer.jsonEscapeChar → s = t := by
  intro s
  induction s with
  | nil =>
    intro t h
    cases t with
    | nil => rfl
    | cons b t =>
      rw [List.flatMap_nil, List.flatMap_cons] at h
      exact absurd (List.append_eq_nil.mp h.symm).1 (jsonEscapeChar_ne_nil b)
  | cons a s ih =>
    intro t h
    cases t with
    | nil =>
      rw [List.flatMap_nil, List.flatMap_cons] at h
      exact absurd (List.append_eq_nil.mp h).1 (jsonEscapeChar_ne_nil a)
    | cons b t =>
      rw [List.flatMap_cons, List.flatMap_cons] at h
      obtain rfl : a = b := jsonEscapeChar_head a b _ _ h
      rw [ih t (List.append_cancel_left h)]

/-- JSON string literals are injective in the underlying string. -/
theorem jsonStr_inj {s t : String} (h : CustServer.jsonStr s = CustServer.jsonStr t) :
    s = t := by
  have hd := congrArg String.data h
  simp only [CustServer.jsonStr, String.data_append] at hd
  exact String.ext (jsonEscape_flatMap_inj _ _
    (List.append_cancel_left (List.append_cancel_right hd)))

/-- The digit accumulator of `Nat.toDigitsCore` is append-compatible. -/
theorem toDigitsCore_acc (b : Nat) : ∀ (f n : Nat) (ds : List Char),
    Nat.toDigitsCore b f n ds = Nat.toDigitsCore b f n [] ++ ds := by
  intro f
  induction f with
  | zero => intro n ds; rfl
  | succ f ih =>
    intro n ds
    unfold Nat.toDigitsCore
    dsimp only
    by_cases h0 : n / b = 0
    · rw [if_pos h0, if_pos h0]
      rfl
    · rw [if_neg h0, if_neg h0, ih (n / b) (Nat.digitChar (n % b) :: ds),
        ih (n / b) [Nat.digitChar (n % b)]]
      simp

/-- Round trip: decoding the decimal digits of `n` gives back `n`. -/
theorem decodeDec_toDigitsCore : ∀ (f n : Nat), n < f →
    decodeDec (Nat.toDigitsCore 10 f n []) = n := by
  intro f
  induction f with
  | zero => intro n h; omega
  | succ f ih =>
    intro n h
    unfold Nat.toDigitsCore
    dsimp only
    by_cases h0 : n / 10 = 0
    · rw [if_pos h0]
      have hd := digitChar_decode (n % 10) (by omega)
      simp [decodeDec, hd]
      omega
    · rw [if_neg h0, toDigitsCore_acc]
      have hrec := ih (n / 10) (by omega)
      have hd := digitChar_decode (n % 10) (by omega)
      simp only [decodeDec, List.foldl_append] at hrec ⊢
      simp [List.foldl, hrec, hd]
      omega

/-- Decimal rendering of naturals is injective. -/
theorem nat_repr_inj {m n : Nat} (h : Nat.repr m = Nat.repr n) : m = n := by
  have hd := congrArg String.data h
  unfold Nat.repr Nat.toDigits List.asString at hd
  dsimp only at hd
  have h1 := decodeDec_toDigitsCore (m + 1) m (by omega)
  have h2 := decodeDec_toDigitsCore (n + 1) n (by omega)
  rw [hd] at h1
  exact h1.symm.trans h2

/-- Unfolding equation of `String.intercalate.go` on a cons cell. -/
theorem intercalate_go_cons (acc sep x : String) (xs : List String) :
    String.intercalate.go acc sep (x :: xs) = String.intercalate.go (acc ++ sep ++ x) sep xs :=
  rfl

/-- The accumulator of `String.intercalate.go` factors out. -/
theorem intercalate_go_acc (sep : String) : ∀ (l : List String) (acc1 acc2 : String),
    String.intercalate.go (acc1 ++ acc2) sep l = acc1 ++ String.intercalate.go acc2 sep l := by
  intro l
  induction l with
  | nil => intro acc1 acc2; rfl
  | cons x xs ih =>
    intro acc1 acc2
    rw [intercalate_go_cons, intercalate_go_cons]
    have hassoc : acc1 ++ acc2 ++ sep ++ x = acc1 ++ (acc2 ++ sep ++ x) := by
      simp [String.append_assoc]
    rw [hassoc]
    exact ih acc1 (acc2 ++ sep ++ x)

/-- Intercalation over a nonempty tail splits off the head. -/
theorem intercalate_cons_ne (sep a : String) (l : List String) (hl : l ≠ []) :
    String.intercalate sep (a :: l) = a ++ sep ++ String.intercalate sep l := by
  cases l with
  | nil => exact absurd rfl hl
  | cons b t =>
    show String.intercalate.go a sep (b :: t) = a ++ sep ++ String.intercalate.go b sep t
    rw [intercalate_go_cons]
    exact intercalate_go_acc sep t (a ++ sep) b

/-- Replacing one element of a comma intercalation while fixing the
others is injective in that element. -/
theorem interc_replace_inj : ∀ (pre post : List String) (x y : String),
    String.intercalate "," (pre ++ x :: post) = String.intercalate "," (pre ++ y :: post) →
    x = y := by
  intro pre
  induction pre with
  | nil =>
    intro post x y h
    cases post with
    | nil => exact h
    | cons p ps =>
      rw [List.nil_append, List.nil_append, intercalate_cons_ne "," x (p :: ps) (by simp),
        intercalate_cons_ne "," y (p :: ps) (by simp)] at h
      have hd := congrArg String.data h
      simp only [String.data_append] at hd
      exact String.ext (List.append_cancel_right (List.append_cancel_right hd))
  | cons p pre ih =>
    intro post x y h
    rw [List.cons_append, List.cons_append, intercalate_cons_ne "," p _ (by simp),
      intercalate_cons_ne "," p _ (by simp)] at h
    have hd := congrArg String.data h
    simp only [String.data_append] at hd
    exact ih post x y (String.ext (List.append_cancel_left hd))

/-- The token-slot assignment touches no other state component. -/
theorem setTok_grants (st : PayServer.ServerState) (t : Option String) :
    (PayServer.setTok st t).grants = st.grants := by
  cases t <;> rfl

/-- The token-slot assignment leaves the quote cache unchanged. -/
theorem setTok_quoteCache (st : PayServer.ServerState) (t : Option String) :
    (PayServer.setTok st t).quoteCache = st.quoteCache := by
  cases t <;> rfl

/-- A deleted key is no longer found. -/
theorem mapGet_mapDelete {α : Type} (m : List (String × α)) (k : String) :
    PayServer.mapGet (PayServer.mapDelete m k) k = none := by
  induction m with
  | nil => rfl
  | cons p t ih =>
    by_cases h : p.1 == k
    · simp only [PayServer.mapDelete, List.filter, h, Bool.not_true] at ih ⊢
      exact ih
    · simp only [PayServer.mapDelete, List.filter, h, Bool.not_false] at ih ⊢
      simpa [PayServer.mapGet, h] using ih

/-- Every branch of `/api/process-payment` leaves the grants map and the
quote cache untouched: the handler contains no ledger access at all. -/
theorem processPayment_preserves_stores (o : PayServer.NetOracle)
    (st : PayServer.ServerState) (req : PayServer.ProcessPaymentRequest) :
    (PayServer.processPayment o st req).2.1.grants = st.grants ∧
    (PayServer.processPayment o st req).2.1.quoteCache = st.quoteCache := by
  constructor <;>
exact by
    unfold PayServer.processPayment
    dsimp only
    repeat' split
    all_goals simp [setTok_grants, setTok_quoteCache]

/-! ## Claim theorems -/

/-- Claim C1: the spec requires that `spentToday` never exceeds
`dailyLimit`, with the settlement path rejecting over-limit spends and
committing `spentToday` otherwise. The code has no such ledger: the
handler of `/api/process-payment` never reads or writes the `grants`
map, so a spend of 60 against a grant with `dailyLimit = 50` succeeds
and `spentToday` stays 0. -/
theorem C1_process_payment_never_touches_ledger :
    (∀ (o : PayServer.NetOracle) (st : PayServer.ServerState)
        (req : PayServer.ProcessPaymentRequest),
        (PayServer.processPayment o st req).2.1.grants = st.grants) ∧
    grantC1.dailyLimit < 60 ∧ grantC1.spentToday = 0 ∧
    reqC1.spendAmount = some 60 ∧
    (PayServer.processPayment okOracle stC1 reqC1).1 =
      PayServer.PPResult.created "ip1" "qt1" "op1" "rotated-token" ∧
    (PayServer.processPayment okOracle stC1 reqC1).2.2.outgoingIssued = some argsC1 ∧
    argsC1.debitValue = "6000" ∧
    (PayServer.processPayment okOracle stC1 reqC1).2.1.grants = [("g1", grantC1)] := by
  refine ⟨fun o st req => (processPayment_preserves_stores o st req).1, ?_⟩
  decide

/-- Claim C6: the spec demands a per-grant token, but the code keeps the
continued token in the process-wide `outgoingpaymentgrantaccessToken`.
After a first request continues grant A (token `token-A`), a second
request carrying grant B's continuation credentials performs no
continuation of its own and creates its outgoing payment with grant A's
token, although its own credentials would have yielded `token-B`. -/
theorem C6_token_slot_shared_across_grants :
    (PayServer.processPayment oracleC6 stC6 reqC6A).2.1.outgoingpaymentgrantaccessToken =
      some "token-A" ∧
    (PayServer.processPayment oracleC6
        (PayServer.processPayment oracleC6 stC6 reqC6A).2.1 reqC6B).2.2.continued = none ∧
    ((PayServer.processPayment oracleC6
        (PayServer.processPayment oracleC6 stC6 reqC6A).2.1 reqC6B).2.2.outgoingIssued.map
      PayServer.OutgoingArgs.accessToken) = some "token-A" ∧
    (oracleC6.grantContinue "catB" "curiB" (some "irB")).toOption = some "token-B" ∧
    ("token-A" : String) ≠ "token-B" := by
  decide

/-- Claim C7: the spec requires `value = amount × 10 ^ assetScale` of
the wallet the amount is for. The `cache.ts` sites conform, but
`/api/process-payment` hardcodes `amount * 100` for both the incoming
amount and the outgoing debit: against scale-3 wallets a spend of 5
yields value `"500"` instead of `"5000"`. -/
theorem C7_process_payment_hardcodes_scale_two :
    (∀ (w : WalletInfo) (a : Nat),
        InstantPay.createVendorIncomingPaymentValue w a = Nat.repr (a * 10 ^ w.assetScale)) ∧
    (∀ (w : WalletInfo) (a : Nat),
        InstantPay.makeInstantPaymentDebitValue w a = Nat.repr (a * 10 ^ w.assetScale)) ∧
    walletScale3.assetScale = 3 ∧ reqC7.spendAmount = some 5 ∧
    (PayServer.processPayment oracleC7 stC6 reqC7).2.2.incomingIssued =
      some ("500", walletScale3) ∧
    (PayServer.processPayment oracleC7 stC6 reqC7).2.2.outgoingIssued = some argsC7 ∧
    argsC7.debitValue = "500" ∧ argsC7.debitAssetScale = 3 ∧
    ("500" : String) ≠ Nat.repr (5 * 10 ^ 3) := by
  refine ⟨fun w a => rfl, fun w a => rfl, ?_⟩
  decide

/-- Claim C10: a `/api/process-payment` request that carries
`receiverWalletAddress`, `continueAccessToken`, `continueUri` and
`spendAmount` but omits `customerWalletAddress` passes field validation,
and — whatever the network does — the run ends in the catch branch with
a 500 response and no outgoing payment ever created, because the final
create dereferences the absent customer wallet details. -/
theorem C10_missing_customer_wallet_always_500 :
    ∀ (o : PayServer.NetOracle) (st : PayServer.ServerState)
      (req : PayServer.ProcessPaymentRequest),
      req.customerWalletAddress = none →
      PayServer.truthyS req.receiverWalletAddress = true →
      PayServer.truthyS req.continueAccessToken = true →
      PayServer.truthyS req.continueUri = true →
      PayServer.truthyN req.spendAmount = true →
      (PayServer.processPayment o st req).1.is500 = true ∧
      (PayServer.processPayment o st req).2.2.outgoingIssued = none := by
  intro o st req hcw h1 h2 h3 h4
  unfold PayServer.processPayment
  rw [hcw, h1, h2, h3, h4]
  dsimp only
  repeat' split
  all_goals simp_all [PayServer.PPResult.is500, PayServer.noEffects]

/-- Witness for C10 at a concrete request, state and all-succeeding
oracle. -/
theorem C10_witness :
    (PayServer.processPayment okOracle stC6 reqC10).1.is500 = true ∧
    (PayServer.processPayment okOracle stC6 reqC10).2.2.outgoingIssued = none :=
  C10_missing_customer_wallet_always_500 okOracle stC6 reqC10 rfl (by decide) (by decide)
    (by decide) (by decide)

/-- Claim C4: a payment session is consumed at most once: after a
successful approval the session entry is deleted, so a second approval
of the same session id answers "No payment session found" and performs
no payment; and a session whose expiry has passed answers the expiry
error without any payment. -/
theorem C4_session_consumed_at_most_once :
    ∀ (o o2 : PayServer.NetOracle) (now now2 : Nat) (st : PayServer.ServerState)
      (req : PayServer.ApproveRequest),
      (∀ opid st' fx,
        PayServer.approvePayment o now st req =
          (PayServer.ApproveResult.approved opid, st', fx) →
        o2.authClientOk = true →
        PayServer.approvePayment o2 now2 st' req =
          (PayServer.ApproveResult.sessionNotFound, st', none)) ∧
      (∀ sid entry, req.clientSessionId = some sid →
        PayServer.mapGet st.quoteCache sid = some entry →
        entry.grantExpiry < now →
        PayServer.truthyS req.clientSessionId = true →
        PayServer.truthyS req.senderWalletAddress = true →
        PayServer.truthyS req.continueAccessToken = true →
        PayServer.truthyS req.interactRef = true →
        PayServer.truthyS req.continueUri = true →
        o.authClientOk = true →
        PayServer.approvePayment o now st req =
          (PayServer.ApproveResult.sessionExpired, st, none)) := by
  intro o o2 now now2 st req
  constructor
  · intro opid st' fx hEq hAuth
    unfold PayServer.approvePayment at hEq
    dsimp only at hEq
    split at hEq
    · simp at hEq
    · rename_i hval
      split at hEq
      · simp at hEq
      · split at hEq
        · simp at hEq
        · rename_i cached hcache
          split at hEq
          · simp at hEq
          · split at hEq
            · simp at hEq
            · split at hEq
              · simp at hEq
              · rename_i outId hout
                have hst : st' = { st with
                    quoteCache :=
                      PayServer.mapDelete st.quoteCache (req.clientSessionId.getD "") } :=
                  (congrArg (fun p => p.2.1) hEq).symm
                subst hst
                unfold PayServer.approvePayment
                rw [if_neg hval, hAuth]
                simp [mapGet_mapDelete]
  · intro sid entry hsid hcache hexp ht1 ht2 ht3 ht4 ht5 hAuth
    unfold PayServer.approvePayment
    rw [ht1, ht2, ht3, ht4, ht5, hAuth]
    simp only [hsid] at hcache ⊢
    simp [hcache, hexp]

/-- Witness for C4: the concrete session `s1` is consumed by a first
approval and a second attempt is refused, and an expired session is
refused. -/
theorem C4_witness :
    PayServer.approvePayment okOracle 0 st1C4 reqC4 =
      (PayServer.ApproveResult.sessionNotFound, st1C4, none) ∧
    PayServer.approvePayment okOracle 200 stC4 reqC4 =
      (PayServer.ApproveResult.sessionExpired, stC4, none) :=
  ⟨(C4_session_consumed_at_most_once okOracle okOracle 60 0 stC4 reqC4).1 "op1" st1C4
      (some argsC4) (by decide) rfl,
   (C4_session_consumed_at_most_once okOracle okOracle 200 0 stC4 reqC4).2 "s1"
      ⟨"qt-cached", 100, "ip-cached"⟩ rfl (by decide) (by decide) (by decide) (by decide)
      (by decide) (by decide) (by decide) rfl⟩

/-- Claim C2: `completeInstantPaySetup` invokes the grant continuation
only when the interaction-hash verification has succeeded — whenever the
continuation runs, the received hash equals the hash computed over the
cached nonces and the authorization server on record — and a mismatched
hash (for example one computed over a different authorization-server
URL) is rejected before the continuation is ever invoked. -/
theorem C2_continuation_only_after_verified_hash :
    ∀ (dir : String → WalletInfo)
      (oracle : String → String → String → Except String InstantPay.TokenInfo)
      (cached : Option InstantPay.InstantPayData) (interactRef hash : String),
      ((InstantPay.completeInstantPaySetup dir oracle cached interactRef hash).2 = true →
        ∃ d, cached = some d ∧
          hash = InstantPay.computeHash d.clientNonce d.interactNonce interactRef
            (dir d.walletAddressUrl).authServer) ∧
      (∀ d, cached = some d →
        hash ≠ InstantPay.computeHash d.clientNonce d.interactNonce interactRef
          (dir d.walletAddressUrl).authServer →
        InstantPay.completeInstantPaySetup dir oracle cached interactRef hash =
          (Except.error "Hash verification failed", false)) := by
  intro dir oracle cached interactRef hash
  constructor
  · intro h2
    rcases cached with _ | d
    · simp [InstantPay.completeInstantPaySetup] at h2
    · refine ⟨d, rfl, ?_⟩
      unfold InstantPay.completeInstantPaySetup at h2
      dsimp only at h2
      split at h2
      · simp at h2
      · rename_i tk hv
        unfold InstantPay.verifyInteractionHash at hv
        dsimp only at hv
        split at hv
        · rename_i heq
          exact heq.symm
        · simp at hv
  · intro d hc hne
    subst hc
    unfold InstantPay.completeInstantPaySetup InstantPay.verifyInteractionHash
    dsimp only
    rw [if_neg (fun h => hne h.symm)]

/-- Witness for C2 at a concrete directory, continuation oracle, cached
entry and a received hash that does not match. -/
theorem C2_witness :
    InstantPay.completeInstantPaySetup
      (fun u => ⟨u, "ZAR", 2, "https://auth.test", u⟩)
      (fun _ _ _ => Except.ok ⟨"final-token", "manage"⟩)
      (some ⟨"w", "n1", "n2", "curi", "ctok"⟩) "ref" "" =
      (Except.error "Hash verification failed", false) :=
  (C2_continuation_only_after_verified_hash
      (fun u => ⟨u, "ZAR", 2, "https://auth.test", u⟩)
      (fun _ _ _ => Except.ok ⟨"final-token", "manage"⟩)
      (some ⟨"w", "n1", "n2", "curi", "ctok"⟩) "ref" "").2
    ⟨"w", "n1", "n2", "curi", "ctok"⟩ rfl (by decide)

/-- Counterexample for C3: it is not the case that every change to a
single input makes verification fail. SHA-256 maps infinitely many
strings onto a finite digest type, so some two distinct client nonces
collide, and with them verification accepts the hash computed for the
other nonce. (The colliding pair exists classically; none is feasibly
computable.) -/
theorem C3_counterexample :
    ¬ (∀ n1 n1' n2 ref : String, n1 ≠ n1' →
        InstantPay.verifyInteractionHash (fun u => ⟨u, "ZAR", 2, "https://auth.test", u⟩)
          ⟨ref, InstantPay.computeHash n1 n2 ref "https://auth.test", n1', n2, "w"⟩ =
          Except.error "Hash verification failed") := by
  intro H
  obtain ⟨x, y, hxy, hcol⟩ := Finite.exists_ne_map_eq_of_infinite
    (fun s : String =>
      sha256Digest (strBytes (InstantPay.hashInput s "n2" "ref" "https://auth.test")))
  have hH := H x y "n2" "ref" hxy
  unfold InstantPay.verifyInteractionHash at hH
  dsimp only at hH
  rw [if_pos] at hH
  · exact absurd hH (by simp)
  · show sha256Base64 (InstantPay.hashInput y "n2" "ref" "https://auth.test") =
      InstantPay.computeHash x "n2" "ref" "https://auth.test"
    show base64Encode (digestBytes
      (sha256Digest (strBytes (InstantPay.hashInput y "n2" "ref" "https://auth.test")))) =
      base64Encode (digestBytes
        (sha256Digest (strBytes (InstantPay.hashInput x "n2" "ref" "https://auth.test"))))
    rw [hcol]

/-- Claim C3 (amended): verification succeeds iff the received hash
equals the digest computed over the four inputs; changing any single
input changes the hashed preimage string; and whenever the recomputed
digest differs from the digest the received hash was built from,
verification fails. (The unconditional "any change makes verification
fail" fails only at infeasible digest collisions.) -/
theorem C3_verification_matches_computed_hash :
    (∀ (dir : String → WalletInfo) (p : InstantPay.VerifyParams),
      InstantPay.verifyInteractionHash dir p = Except.ok () ↔
        p.receivedHash = InstantPay.computeHash p.clientNonce p.interactNonce p.interactRef
          (dir p.walletAddressUrl).authServer) ∧
    (∀ a a' b c d : String, a ≠ a' →
      InstantPay.hashInput a b c d ≠ InstantPay.hashInput a' b c d) ∧
    (∀ a b b' c d : String, b ≠ b' →
      InstantPay.hashInput a b c d ≠ InstantPay.hashInput a b' c d) ∧
    (∀ a b c c' d : String, c ≠ c' →
      InstantPay.hashInput a b c d ≠ InstantPay.hashInput a b c' d) ∧
    (∀ a b c d d' : String, d ≠ d' →
      InstantPay.hashInput a b c d ≠ InstantPay.hashInput a b c d') ∧
    (∀ (dir : String → WalletInfo) (p : InstantPay.VerifyParams) (a b c d : String),
      p.receivedHash = InstantPay.computeHash a b c d →
      InstantPay.computeHash a b c d ≠
        InstantPay.computeHash p.clientNonce p.interactNonce p.interactRef
          (dir p.walletAddressUrl).authServer →
      InstantPay.verifyInteractionHash dir p = Except.error "Hash verification failed") := by
  refine ⟨?_, ?_, ?_, ?_, ?_, ?_⟩
  · intro dir p
    unfold InstantPay.verifyInteractionHash
    dsimp only
    constructor
    · intro h
      by_cases hc : sha256Base64 (p.clientNonce ++ "\n" ++ p.interactNonce ++ "\n" ++
          p.interactRef ++ "\n" ++ (dir p.walletAddressUrl).authServer ++ "/") = p.receivedHash
      · exact hc.symm
      · rw [if_neg hc] at h
        exact absurd h (by simp)
    · intro h
      have hc : sha256Base64 (p.clientNonce ++ "\n" ++ p.interactNonce ++ "\n" ++
          p.interactRef ++ "\n" ++ (dir p.walletAddressUrl).authServer ++ "/") =
            p.receivedHash := h.symm
      rw [if_pos hc]
  · intro a a' b c d hne heq
    apply hne
    have h := congrArg String.data heq
    simp only [InstantPay.hashInput, String.data_append] at h
    exact String.ext (List.append_cancel_right (List.append_cancel_right
      (List.append_cancel_right (List.append_cancel_right (List.append_cancel_right
        (List.append_cancel_right (List.append_cancel_right h)))))))
  · intro a b b' c d hne heq
    apply hne
    have h := congrArg String.data heq
    simp only [InstantPay.hashInput, String.data_append] at h
    exact String.ext (List.append_cancel_left (List.append_cancel_right
      (List.append_cancel_right (List.append_cancel_right (List.append_cancel_right
        (List.append_cancel_right h))))))
  · intro a b c c' d hne heq
    apply hne
    have h := congrArg String.data heq
    simp only [InstantPay.hashInput, String.data_append] at h
    exact String.ext (List.append_cancel_left (List.append_cancel_right
      (List.append_cancel_right (List.append_cancel_right h))))
  · intro a b c d d' hne heq
    apply hne
    have h := congrArg String.data heq
    simp only [InstantPay.hashInput, String.data_append] at h
    exact String.ext (List.append_cancel_left (List.append_cancel_right h))
  · intro dir p a b c d hrec hne
    unfold InstantPay.verifyInteractionHash
    dsimp only
    rw [if_neg (fun h => hne (h.trans hrec).symm)]

/-- Witness for C3 at concrete inputs: two hash preimages with
different client nonces differ, and a verification against a hash
computed over different inputs with a different digest fails. -/
theorem C3_witness :
    InstantPay.hashInput "a" "n2" "ref" "https://auth.test" ≠
      InstantPay.hashInput "b" "n2" "ref" "https://auth.test" ∧
    InstantPay.verifyInteractionHash (fun u => ⟨u, "ZAR", 2, "https://auth.test", u⟩)
      ⟨"ref", InstantPay.computeHash "other" "n2" "ref" "https://auth.test", "n1", "n2", "w"⟩ =
      Except.error "Hash verification failed" :=
  ⟨C3_verification_matches_computed_hash.2.1 "a" "b" "n2" "ref" "https://auth.test"
      (by decide),
   C3_verification_matches_computed_hash.2.2.2.2.2
      (fun u => ⟨u, "ZAR", 2, "https://auth.test", u⟩)
      ⟨"ref", InstantPay.computeHash "other" "n2" "ref" "https://auth.test", "n1", "n2", "w"⟩
      "other" "n2" "ref" "https://auth.test" rfl (by decide)⟩

/-- Counterexample for C5: it is not the case that every mutation of
the bundle content flips verification to false. The HMAC digest type is
finite while contents are not, so two distinct contents share a
signature, and the bundle forged from one verifies against the
signature of the other. (The colliding pair exists classically; none is
feasibly computable.) -/
theorem C5_counterexample :
    ¬ (∀ c c' : CustServer.QRContent, c ≠ c' →
        CustServer.verifyQRSignature ⟨c', CustServer.generateQRSignature c⟩ = false) := by
  intro H
  obtain ⟨x, y, hxy, hcol⟩ := Finite.exists_ne_map_eq_of_infinite
    (fun s : String => hmacDigest (strBytes CustServer.qrSigningSecret)
      (strBytes (CustServer.contentJson ⟨s, [], 0⟩)))
  have hne : (⟨x, [], 0⟩ : CustServer.QRContent) ≠ ⟨y, [], 0⟩ :=
    fun h => hxy (congrArg CustServer.QRContent.customerId h)
  have hH := H ⟨x, [], 0⟩ ⟨y, [], 0⟩ hne
  have hsig : CustServer.generateQRSignature ⟨x, [], 0⟩ =
      CustServer.generateQRSignature ⟨y, [], 0⟩ :=
    congrArg (fun d : Digest8 => hexEncode (digestBytes d)) hcol
  rw [CustServer.verifyQRSignature] at hH
  simp only [hsig] at hH
  simp at hH

/-- Claim C5 (amended): signing then verifying an unmodified bundle
always succeeds; a bundle verifies iff its signature equals the
recomputed MAC of its content; a mutated content fails to verify
against the original signature whenever the two contents' MACs differ;
and mutating any field of the content — the customerId, the
generatedAt, or any field of any grant summary (grantId, vendorId,
vendorName, dailyLimit, expiresAt) — changes the serialized content.
(The unconditional "any mutation fails" fails only at infeasible
digest collisions.) -/
theorem C5_bundle_sign_verify :
    (∀ c : CustServer.QRContent,
      CustServer.verifyQRSignature ⟨c, CustServer.generateQRSignature c⟩ = true) ∧
    (∀ d : CustServer.QRCodeData,
      CustServer.verifyQRSignature d = true ↔
        d.signature = CustServer.generateQRSignature d.content) ∧
    (∀ c c' : CustServer.QRContent,
      CustServer.generateQRSignature c ≠ CustServer.generateQRSignature c' →
      CustServer.verifyQRSignature ⟨c', CustServer.generateQRSignature c⟩ = false) ∧
    (∀ (cid cid' : String) (gs : List CustServer.GrantSummary) (t : Nat), cid ≠ cid' →
      CustServer.contentJson ⟨cid, gs, t⟩ ≠ CustServer.contentJson ⟨cid', gs, t⟩) ∧
    (∀ (cid : String) (gs : List CustServer.GrantSummary) (t t' : Nat), t ≠ t' →
      CustServer.contentJson ⟨cid, gs, t⟩ ≠ CustServer.contentJson ⟨cid, gs, t'⟩) ∧
    (∀ (cid : String) (t : Nat) (pre post : List CustServer.GrantSummary)
        (g g' : CustServer.GrantSummary),
      CustServer.grantJson g ≠ CustServer.grantJson g' →
      CustServer.contentJson ⟨cid, pre ++ g :: post, t⟩ ≠
        CustServer.contentJson ⟨cid, pre ++ g' :: post, t⟩) ∧
    (∀ (a a' b c : String) (d e : Nat), a ≠ a' →
      CustServer.grantJson ⟨a, b, c, d, e⟩ ≠ CustServer.grantJson ⟨a', b, c, d, e⟩) ∧
    (∀ (a b b' c : String) (d e : Nat), b ≠ b' →
      CustServer.grantJson ⟨a, b, c, d, e⟩ ≠ CustServer.grantJson ⟨a, b', c, d, e⟩) ∧
    (∀ (a b c c' : String) (d e : Nat), c ≠ c' →
      CustServer.grantJson ⟨a, b, c, d, e⟩ ≠ CustServer.grantJson ⟨a, b, c', d, e⟩) ∧
    (∀ (a b c : String) (d d' e : Nat), d ≠ d' →
      CustServer.grantJson ⟨a, b, c, d, e⟩ ≠ CustServer.grantJson ⟨a, b, c, d', e⟩) ∧
    (∀ (a b c : String) (d e e' : Nat), e ≠ e' →
      CustServer.grantJson ⟨a, b, c, d, e⟩ ≠ CustServer.grantJson ⟨a, b, c, d, e'⟩) := by
  refine ⟨?_, ?_, ?_, ?_, ?_, ?_, ?_, ?_, ?_, ?_, ?_⟩
  · intro c
    simp [CustServer.verifyQRSignature]
  · intro d
    simp [CustServer.verifyQRSignature]
  · intro c c' h
    simp [CustServer.verifyQRSignature]
    exact h
  · intro cid cid' gs t hne heq
    apply hne
    have hd := congrArg String.data heq
    simp only [CustServer.contentJson, String.data_append] at hd
    exact jsonStr_inj (String.ext (List.append_cancel_left (List.append_cancel_right
      (List.append_cancel_right (List.append_cancel_right (List.append_cancel_right
        (List.append_cancel_right hd)))))))
  · intro cid gs t t' hne heq
    apply hne
    have hd := congrArg String.data heq
    simp only [CustServer.contentJson, String.data_append] at hd
    exact nat_repr_inj (String.ext (List.append_cancel_left (List.append_cancel_right hd)))
  · intro cid t pre post g g' hgg heq
    apply hgg
    have hd := congrArg String.data heq
    simp only [CustServer.contentJson, String.data_append] at hd
    have hI : String.intercalate "," (List.map CustServer.grantJson (pre ++ g :: post)) =
        String.intercalate "," (List.map CustServer.grantJson (pre ++ g' :: post)) :=
      String.ext (List.append_cancel_left (List.append_cancel_right
        (List.append_cancel_right (List.append_cancel_right hd))))
    rw [List.map_append, List.map_cons, List.map_append, List.map_cons] at hI
    exact interc_replace_inj _ _ _ _ hI
  · intro a a' b c d e hne heq
    apply hne
    have hd := congrArg String.data heq
    simp only [CustServer.grantJson, String.data_append] at hd
    exact jsonStr_inj (String.ext (List.append_cancel_left (List.append_cancel_right
      (List.append_cancel_right (List.append_cancel_right (List.append_cancel_right
        (List.append_cancel_right (List.append_cancel_right (List.append_cancel_right
          (List.append_cancel_right (List.append_cancel_right hd)))))))))))
  · intro a b b' c d e hne heq
    apply hne
    have hd := congrArg String.data heq
    simp only [CustServer.grantJson, String.data_append] at hd
    exact jsonStr_inj (String.ext (List.append_cancel_left (List.append_cancel_right
      (List.append_cancel_right (List.append_cancel_right (List.append_cancel_right
        (List.append_cancel_right (List.append_cancel_right (List.append_cancel_right hd)))))))))
  · intro a b c c' d e hne heq
    apply hne
    have hd := congrArg String.data heq
    simp only [CustServer.grantJson, String.data_append] at hd
    exact jsonStr_inj (String.ext (List.append_cancel_left (List.append_cancel_right
      (List.append_cancel_right (List.append_cancel_right (List.append_cancel_right
        (List.append_cancel_right hd)))))))
  · intro a b c d d' e hne heq
    apply hne
    have hd := congrArg String.data heq
    simp only [CustServer.grantJson, String.data_append] at hd
    exact nat_repr_inj (String.ext (List.append_cancel_left (List.append_cancel_right
      (List.append_cancel_right (List.append_cancel_right hd)))))
  · intro a b c d e e' hne heq
    apply hne
    have hd := congrArg String.data heq
    simp only [CustServer.grantJson, String.data_append] at hd
    exact nat_repr_inj (String.ext (List.append_cancel_left (List.append_cancel_right hd)))

set_option maxRecDepth 100000 in
set_option maxHeartbeats 2000000 in
/-- Witness for C5: two concrete contents with different customer ids
produce different signatures, so the forged bundle is rejected; and a
concrete dailyLimit mutation changes the serialized grant summary. -/
theorem C5_witness :
    CustServer.verifyQRSignature
      ⟨⟨"c2", [], 0⟩, CustServer.generateQRSignature ⟨"c1", [], 0⟩⟩ = false ∧
    CustServer.grantJson ⟨"g1", "v1", "Shop", 10, 99⟩ ≠
      CustServer.grantJson ⟨"g1", "v1", "Shop", 20, 99⟩ :=
  ⟨C5_bundle_sign_verify.2.2.1 ⟨"c1", [], 0⟩ ⟨"c2", [], 0⟩ (by decide),
   C5_bundle_sign_verify.2.2.2.2.2.2.2.2.2.1 "g1" "v1" "Shop" 10 20 99 (by decide)⟩

/-- Claim C8 (amended): the QR endpoint selects exactly the customer's
active, unexpired, interaction-completed grants, and serializes their
summaries in the grant store's insertion order, not sorted by grantId,
before signing that content. -/
theorem C8_bundle_selection :
    ∀ (now : Nat) (st : CustServer.CustState) (cid : String) (d : CustServer.QRCodeData),
      CustServer.buildBundle now st cid = some d →
      d.content.customerId = cid ∧ d.content.generatedAt = now ∧
      d.content.grants =
        ((st.grants.map Prod.snd).filter (CustServer.specEligible now cid)).map
          CustServer.summaryOf ∧
      d.signature = CustServer.generateQRSignature d.content := by
  intro now st cid d h
  unfold CustServer.buildBundle at h
  dsimp only at h
  split at h
  · exact absurd h (by simp)
  · split at h
    · exact absurd h (by simp)
    · obtain rfl : (⟨⟨cid,
          ((st.grants.map Prod.snd).filter (CustServer.includeInBundle now cid)).map
            CustServer.summaryOf, now⟩,
          CustServer.generateQRSignature ⟨cid,
            ((st.grants.map Prod.snd).filter (CustServer.includeInBundle now cid)).map
              CustServer.summaryOf, now⟩⟩ : CustServer.QRCodeData) = d := by
        exact Option.some.inj h
      exact ⟨rfl, rfl, rfl, rfl⟩

/-- Witness for C8: the concrete store `stC8` yields a bundle whose
grant list is exactly the eligible grants in store order. -/
theorem C8_witness :
    dC8.content.customerId = "c" ∧ dC8.content.generatedAt = 0 ∧
    dC8.content.grants =
      ((stC8.grants.map Prod.snd).filter (CustServer.specEligible 0 "c")).map
        CustServer.summaryOf ∧
    dC8.signature = CustServer.generateQRSignature dC8.content :=
  C8_bundle_selection 0 stC8 "c" dC8 rfl

/-- Counterexample for C8: the bundle built over a store holding grant
ids `b` then `a` lists them in insertion order `["b", "a"]`, which is
not sorted by grantId, and the ineligible grant `p` (no interaction
reference) is excluded. -/
theorem C8_counterexample :
    (CustServer.buildBundle 0 stC8 "c").map
        (fun d => d.content.grants.map CustServer.GrantSummary.grantId) =
      some ["b", "a"] ∧
    ¬ CustServer.specSortedByGrantId
        (((CustServer.buildBundle 0 stC8 "c").getD ⟨⟨"", [], 0⟩, ""⟩).content.grants) := by
  constructor
  · rfl
  · intro hs
    have h3 : ((CustServer.buildBundle 0 stC8 "c").getD ⟨⟨"", [], 0⟩, ""⟩).content.grants =
        [CustServer.summaryOf grantC8b, CustServer.summaryOf grantC8a] := rfl
    rw [h3] at hs
    exact absurd hs.1 (by decide)

/-- Claim C9 (amended): the grants endpoint of the customer server
rejects a creation when an active grant for the same
(customer, vendor) pair already exists, and only creates one when none
does; but this duplicate check does not hold for every creation path —
the authorize-vendor endpoint performs none. -/
theorem C9_grants_endpoint_rejects_duplicates :
    (∀ (o : PayServer.NetOracle) (now : Nat) (freshId : String) (st : CustServer.CustState)
        (cid : String) (req : CustServer.CreateGrantRequest) (c : CustServer.Customer)
        (v : PayServer.Vendor) (g : CustServer.CustomerGrant),
        PayServer.mapGet st.customers cid = some c →
        PayServer.mapGet st.vendors (req.vendorId.getD "") = some v →
        PayServer.truthyN req.dailyLimit = true →
        CustServer.existingActiveGrant st.grants cid (req.vendorId.getD "") = some g →
        CustServer.createGrant o now freshId st cid req =
          (CustServer.CreateGrantResult.duplicateGrant, st)) ∧
    (∀ (o : PayServer.NetOracle) (now : Nat) (freshId : String) (st : CustServer.CustState)
        (cid : String) (req : CustServer.CreateGrantRequest) (gid : String)
        (st' : CustServer.CustState),
        CustServer.createGrant o now freshId st cid req =
          (CustServer.CreateGrantResult.created gid, st') →
        CustServer.existingActiveGrant st.grants cid (req.vendorId.getD "") = none) := by
  constructor
  · intro o now freshId st cid req c v g hc hv ht hdup
    unfold CustServer.createGrant
    rw [hc, hv, ht, hdup]
    rfl
  · intro o now freshId st cid req gid st' h
    unfold CustServer.createGrant at h
    dsimp only at h
    split at h
    · simp at h
    · split at h
      · simp at h
      · split at h
        · simp at h
        · split at h
          · simp at h
          · rename_i hdup
            split at h
            · simp at h
            · split at h
              · simp at h
              · split at h
                · simp at h
                · exact hdup

/-- Witness for C9: a create-grant request for a pair that already has
an active grant is refused with the duplicate error. -/
theorem C9_witness :
    CustServer.createGrant okOracle 0 "g2" stC9w "c1" reqC9w =
      (CustServer.CreateGrantResult.duplicateGrant, stC9w) :=
  (C9_grants_endpoint_rejects_duplicates).1 okOracle 0 "g2" stC9w "c1" reqC9w
    ⟨"c1", "Jane", "w"⟩ ⟨"v1", "ShopA Market", "wv"⟩ grantC9w
    (by decide) (by decide) (by decide) (by decide)

/-- Counterexample for C9: the authorize-vendor endpoint of the payment
server creates a second grant for a (customer, vendor) pair that
already has an active one: after the call the pair has two active
grants. -/
theorem C9_counterexample :
    activeGrantCount stC9.grants "c1" "v1" = 1 ∧
    (PayServer.authorizeVendor okOracle 0 "g2" stC9 "c1" reqC9).1 =
      PayServer.AuthorizeVendorResult.created "g2" ∧
    activeGrantCount (PayServer.authorizeVendor okOracle 0 "g2" stC9 "c1" reqC9).2.grants
      "c1" "v1" = 2 := by
  decide

end PaperPay
